import Mathlib

/-!
Verification of the request-authorization pipeline of a multi-tenant ERP
backend: tenant resolution with a TTL cache (TenantResolverService), the
pre-auth tenant-context middleware and post-auth enhancer interceptor,
the TenantGuard / ModuleGuard / RoleGuard chain, and the in-memory rate
limiter with IP blocking (CustomThrottlerGuard).

Shallow embedding conventions:
* JavaScript `Date.now()` timestamps are `Nat` milliseconds.
* JS `Map<string, V>` objects are association lists `List (String × V)`
  with `mapLookup` / `mapInsert` / `mapErase`.
* The Prisma-backed company directory is a `List TenantInfo` value; the
  `findUnique({subdomain | id, isActive: true})` queries are `List.find?`.
* JS string falsiness (`if (!s)`) is an emptiness test; JS optional
  booleans (`user.isSuperadmin`) are `Option Bool` with `jsBoolTruthy`.
* Thrown `ForbiddenException` / `BadRequestException` values are the
  `GuardOutcome.forbidden` / `GuardOutcome.badRequest` constructors
  carrying the exception message; resolver store errors cannot arise in
  the embedding because the store is a total value, matching the
  source's catch-and-convert policy of never letting resolution throw.
* Each resolver operation additionally returns a `List ResolverEffect`
  recording, in order, every cache read, store lookup and cache write it
  performed, so that claims about "served from cache" or "no second
  store lookup" are directly statable.
-/

/-- Immutable snapshot of a company row (`TenantInfo` in
`tenant-context.type.ts`, same shape as the Prisma `Company` row the
resolver reads). -/
structure TenantInfo where
  id : String
  name : String
  subdomain : String
  isActive : Bool
deriving Repr, DecidableEq

/-- Per-request tenant context (`TenantContext`): the id plus optional
resolved detail. -/
structure TenantContext where
  tenantId : String
  tenantInfo : Option TenantInfo
deriving Repr, DecidableEq

/-- Source tag of a resolution result (`TenantResolutionSource`). -/
inductive TenantResolutionSource where
  | jwt
  | subdomain
  | header
  | fallback
deriving Repr, DecidableEq

/-- Resolution outcome (`TenantResolutionResult`): always a value, never
an exception. -/
structure TenantResolutionResult where
  success : Bool
  tenantId : Option String := none
  tenantInfo : Option TenantInfo := none
  source : TenantResolutionSource
  error : Option String := none
deriving Repr, DecidableEq

/-- Association-list lookup, modelling `Map.get`. -/
def mapLookup {α : Type} : List (String × α) → String → Option α
  | [], _ => none
  | (k0, v) :: rest, k => if k0 = k then some v else mapLookup rest k

/-- Association-list deletion, modelling `Map.delete`. -/
def mapErase {α : Type} (m : List (String × α)) (k : String) : List (String × α) :=
  m.filter (fun kv => kv.1 ≠ k)

/-- Association-list insertion, modelling `Map.set`. -/
def mapInsert {α : Type} (m : List (String × α)) (k : String) (v : α) : List (String × α) :=
  (k, v) :: mapErase m k

/-- Lowercasing via `Char.toLower`, modelling `String.prototype.toLowerCase`
on the ASCII subdomain alphabet the system uses. -/
def lowerStr (s : String) : String :=
  (s.data.map Char.toLower).asString

/-- The resolver's two cache maps (`tenantCache` and `cacheTimestamps` in
`TenantResolverService`). -/
structure ResolverState where
  tenantCache : List (String × TenantInfo)
  cacheTimestamps : List (String × Nat)
deriving Repr, DecidableEq

/-- `CACHE_TTL = 5 * 60 * 1000` milliseconds. -/
def CACHE_TTL : Nat := 5 * 60 * 1000

/-- Trace entry for one externally visible resolver action. -/
inductive ResolverEffect where
  | cacheRead (key : String)
  | storeLookupBySubdomain (subdomain : String)
  | storeLookupById (id : String)
  | cacheWrite (key : String)
deriving Repr, DecidableEq

/-- `getCachedTenant`: return the entry when present and fresh, otherwise
delete both map entries and miss. The JS guard is
`if (cached && timestamp && Date.now() - timestamp < this.CACHE_TTL)`;
a stored timestamp of `0` is falsy in JS and therefore also a miss.
`Nat` truncated subtraction agrees with the JS comparison outcome for
every timestamp. -/
def getCachedTenant (st : ResolverState) (now : Nat) (key : String) :
    Option TenantInfo × ResolverState :=
  match mapLookup st.tenantCache key, mapLookup st.cacheTimestamps key with
  | some cached, some ts =>
      if ts ≠ 0 ∧ now - ts < CACHE_TTL then
        (some cached, st)
      else
        (none, { tenantCache := mapErase st.tenantCache key,
                 cacheTimestamps := mapErase st.cacheTimestamps key })
  | _, _ =>
      (none, { tenantCache := mapErase st.tenantCache key,
               cacheTimestamps := mapErase st.cacheTimestamps key })

/-- `setCachedTenant`: store the value and stamp it with the current time. -/
def setCachedTenant (st : ResolverState) (now : Nat) (key : String) (tenant : TenantInfo) :
    ResolverState :=
  { tenantCache := mapInsert st.tenantCache key tenant,
    cacheTimestamps := mapInsert st.cacheTimestamps key now }

/-- The external company directory consumed by the resolver. -/
abbrev CompanyStore := List TenantInfo

/-- `prisma.company.findUnique({ where: { subdomain, isActive: true } })`. -/
def findUniqueCompanyBySubdomain (store : CompanyStore) (sub : String) : Option TenantInfo :=
  store.find? (fun c => c.subdomain == sub && c.isActive)

/-- `prisma.company.findUnique({ where: { id, isActive: true } })`. -/
def findUniqueCompanyById (store : CompanyStore) (id : String) : Option TenantInfo :=
  store.find? (fun c => c.id == id && c.isActive)

/-- `TenantResolverService.resolveFromSubdomain`. Checks the cache under
the raw `subdomain` argument, queries the store with the lowercased
subdomain on a miss, and on success caches the snapshot under the raw
`subdomain` argument. Not-found is a `success := false` value and writes
nothing. -/
def resolveFromSubdomain (store : CompanyStore) (st : ResolverState) (now : Nat)
    (subdomain : String) :
    TenantResolutionResult × ResolverState × List ResolverEffect :=
  if subdomain = "" then
    ({ success := false, source := .subdomain, error := some "No subdomain provided" }, st, [])
  else
    match getCachedTenant st now subdomain with
    | (some cached, st1) =>
        ({ success := true, tenantId := some cached.id, tenantInfo := some cached,
           source := .subdomain }, st1, [.cacheRead subdomain])
    | (none, st1) =>
        match findUniqueCompanyBySubdomain store (lowerStr subdomain) with
        | none =>
            ({ success := false, source := .subdomain,
               error := some ("No active company found for subdomain: " ++ subdomain) },
             st1, [.cacheRead subdomain, .storeLookupBySubdomain (lowerStr subdomain)])
        | some company =>
            let tenantInfo : TenantInfo :=
              { id := company.id, name := company.name, subdomain := company.subdomain,
                isActive := company.isActive }
            ({ success := true, tenantId := some company.id, tenantInfo := some tenantInfo,
               source := .subdomain },
             setCachedTenant st1 now subdomain tenantInfo,
             [.cacheRead subdomain, .storeLookupBySubdomain (lowerStr subdomain),
              .cacheWrite subdomain])

/-- `TenantResolverService.resolveFromJWT`. Trusts the verified company id
but re-validates existence and active status against the store; never
consults the cache, and on success caches the snapshot under the
company's subdomain. -/
def resolveFromJWT (store : CompanyStore) (st : ResolverState) (now : Nat)
    (companyId : String) :
    TenantResolutionResult × ResolverState × List ResolverEffect :=
  if companyId = "" then
    ({ success := false, source := .jwt, error := some "No company ID in JWT payload" }, st, [])
  else
    match findUniqueCompanyById store companyId with
    | none =>
        ({ success := false, source := .jwt,
           error := some ("Invalid or inactive company ID: " ++ companyId) },
         st, [.storeLookupById companyId])
    | some company =>
        let tenantInfo : TenantInfo :=
          { id := company.id, name := company.name, subdomain := company.subdomain,
            isActive := company.isActive }
        ({ success := true, tenantId := some company.id, tenantInfo := some tenantInfo,
           source := .jwt },
         setCachedTenant st now company.subdomain tenantInfo,
         [.storeLookupById companyId, .cacheWrite company.subdomain])

/-- `TenantResolverService.resolveFromHeader`: delegates to the JWT logic
and retags the result `source := header`. -/
def resolveFromHeader (store : CompanyStore) (st : ResolverState) (now : Nat)
    (companyId : String) :
    TenantResolutionResult × ResolverState × List ResolverEffect :=
  if companyId = "" then
    ({ success := false, source := .header, error := some "No company ID in header" }, st, [])
  else
    match resolveFromJWT store st now companyId with
    | (result, st1, effs) => ({ result with source := .header }, st1, effs)

/-- The verified claims bag attached to `request.user` after token
verification (`JwtPayload` in `jwt-payload.type.ts`). `isSuperadmin` is
an optional boolean in the source. A missing `companyId` is the empty
string, matching the JS falsiness checks the guards perform. -/
structure JwtPayload where
  userId : String
  companyId : String
  roleIds : List String
  permissions : List String
  tokenVersion : Nat
  isSuperadmin : Option Bool
deriving Repr, DecidableEq

/-- JS truthiness of an optional boolean claim. -/
def jsBoolTruthy : Option Bool → Bool
  | some b => b
  | none => false

/-- JS truthiness of an optional string (empty string is falsy). -/
def strTruthy : Option String → Bool
  | some s => s != ""
  | none => false

/-- Splitting a character list on the dot character, modelling
`hostname.split(".")`. -/
def splitOnDot : List Char → List (List Char)
  | [] => [[]]
  | c :: cs =>
    let rest := splitOnDot cs
    if c = '.' then [] :: rest
    else
      match rest with
      | g :: gs => (c :: g) :: gs
      | [] => [[c]]

/-- Substring containment on character lists, modelling
`String.prototype.includes`. -/
def listHasSeg (hay pat : List Char) : Bool :=
  pat.isPrefixOf hay ||
    match hay with
    | [] => false
    | _ :: t => listHasSeg t pat

/-- `url.includes(pat)` on strings. -/
def strContains (s pat : String) : Bool :=
  listHasSeg s.data pat.data

/-- Consume a leading run of decimal digits, returning how many were
consumed and the remainder. -/
def dropDigits : List Char → Nat × List Char
  | [] => (0, [])
  | c :: cs =>
    if c.isDigit then
      let r := dropDigits cs
      (r.1 + 1, r.2)
    else (0, c :: cs)

/-- Expect a dot followed by at least one digit; return the remainder. -/
def dotDigits : List Char → Option (List Char)
  | [] => none
  | c :: rest =>
    if c = '.' then
      let r := dropDigits rest
      if r.1 = 0 then none else some r.2
    else none

/-- Test of the anchored regex `^\d+\.\d+\.\d+\.\d+` used by the
middleware to recognise raw IPv4 hosts. -/
def ipv4Start (s : String) : Bool :=
  let r0 := dropDigits s.data
  if r0.1 = 0 then false
  else
    match dotDigits r0.2 with
    | none => false
    | some r1 =>
      match dotDigits r1 with
      | none => false
      | some r2 => (dotDigits r2).isSome

/-- `TenantContextMiddleware.extractSubdomain`: decline on empty hosts,
hosts containing `localhost`, and raw IPv4 hosts; require at least three
dot-separated labels; reject the reserved labels `www`, `api`, `admin`;
lowercase the accepted label. -/
def extractSubdomain (hostname : String) : Option String :=
  if hostname = "" then none
  else if strContains hostname "localhost" || ipv4Start hostname then none
  else
    let parts := (splitOnDot hostname.data).map List.asString
    if parts.length ≥ 3 then
      match parts with
      | sub :: _ =>
        if sub ≠ "" ∧ sub ∉ ["www", "api", "admin"] then some (lowerStr sub)
        else none
      | [] => none
    else none

/-- The request-intrinsic inputs the middleware consumes. -/
structure MiddlewareRequest where
  hostname : String
  user : Option JwtPayload
  headerCompanyId : Option String
deriving Repr, DecidableEq

/-- The three candidate tenant signals
(`TenantContextMiddleware.extractTenantSources`). -/
structure TenantSources where
  subdomain : Option String
  userCompanyId : Option String
  headerCompanyId : Option String
deriving Repr, DecidableEq

/-- `extractTenantSources`: subdomain from the host name, company id from
the (pre-auth, usually absent) user, and the `X-Company-Id` header. -/
def extractTenantSources (req : MiddlewareRequest) : TenantSources :=
  { subdomain := extractSubdomain req.hostname,
    userCompanyId := req.user.map (fun u => u.companyId),
    headerCompanyId := req.headerCompanyId }

/-- The all-methods-failed result of `TenantContextMiddleware.resolveTenant`. -/
def fallbackFailure : TenantResolutionResult :=
  { success := false, source := .fallback,
    error := some "No valid tenant source found (no JWT company, subdomain, or header)" }

/-- Priority 3 of `resolveTenant`: the `X-Company-Id` header. -/
def resolveTenantStage3 (store : CompanyStore) (st : ResolverState) (now : Nat)
    (sources : TenantSources) (acc : List ResolverEffect) :
    TenantResolutionResult × ResolverState × List ResolverEffect :=
  if strTruthy sources.headerCompanyId then
    match resolveFromHeader store st now (sources.headerCompanyId.getD "") with
    | (r, st1, effs) =>
      if r.success then (r, st1, acc ++ effs)
      else (fallbackFailure, st1, acc ++ effs)
  else (fallbackFailure, st, acc)

/-- Priority 2 of `resolveTenant`: the subdomain. -/
def resolveTenantStage2 (store : CompanyStore) (st : ResolverState) (now : Nat)
    (sources : TenantSources) (acc : List ResolverEffect) :
    TenantResolutionResult × ResolverState × List ResolverEffect :=
  if strTruthy sources.subdomain then
    match resolveFromSubdomain store st now (sources.subdomain.getD "") with
    | (r, st1, effs) =>
      if r.success then (r, st1, acc ++ effs)
      else resolveTenantStage3 store st1 now sources (acc ++ effs)
  else resolveTenantStage3 store st now sources acc

/-- `TenantContextMiddleware.resolveTenant`: try the authenticated user's
company first, then the subdomain, then the header; return the fallback
failure when everything misses. -/
def resolveTenant (store : CompanyStore) (st : ResolverState) (now : Nat)
    (sources : TenantSources) :
    TenantResolutionResult × ResolverState × List ResolverEffect :=
  if strTruthy sources.userCompanyId then
    match resolveFromJWT store st now (sources.userCompanyId.getD "") with
    | (r, st1, effs) =>
      if r.success then (r, st1, effs)
      else resolveTenantStage2 store st1 now sources effs
  else resolveTenantStage2 store st now sources []

/-- The request-scoped fields written by the pipeline
(`request.user`, `request.tenantContext`, `request.tenantResolution`). -/
structure RequestState where
  user : Option JwtPayload
  tenantContext : Option TenantContext
  tenantResolution : Option TenantResolutionResult
deriving Repr, DecidableEq

/-- `TenantContextMiddleware.use`: resolve, store the raw result, and on
success attach a tenant context; on failure attach nothing and continue
(the middleware never blocks the request). -/
def middlewareUse (store : CompanyStore) (st : ResolverState) (now : Nat)
    (req : MiddlewareRequest) : RequestState × ResolverState :=
  let sources := extractTenantSources req
  let r := resolveTenant store st now sources
  let ctx : Option TenantContext :=
    if r.1.success then
      some { tenantId := r.1.tenantId.getD "", tenantInfo := r.1.tenantInfo }
    else none
  ({ user := req.user, tenantContext := ctx, tenantResolution := some r.1 }, r.2.1)

/-- `TenantContextInterceptor.intercept` (post-auth enhancer): only for an
authenticated user with a company id, and only when the current context
is absent or lacks `tenantInfo`, re-resolve from the verified claim and
overwrite the context on success; on failure leave everything untouched. -/
def interceptorIntercept (store : CompanyStore) (st : ResolverState) (now : Nat)
    (rs : RequestState) : RequestState × ResolverState :=
  match rs.user with
  | some user =>
    if user.companyId ≠ "" then
      let needsEnhance :=
        match rs.tenantContext with
        | none => true
        | some ctx => ctx.tenantInfo.isNone
      if needsEnhance then
        match resolveFromJWT store st now user.companyId with
        | (r, st1, _) =>
          if r.success then
            let enhanced : TenantContext :=
              { tenantId := r.tenantId.getD "", tenantInfo := r.tenantInfo }
            ({ rs with tenantContext := some enhanced }, st1)
          else (rs, st1)
      else (rs, st)
    else (rs, st)
  | none => (rs, st)

/-- The per-request stage ordering of the source pipeline: the middleware
runs before credential verification (so `request.user` is absent there),
the token verifier then attaches the verified claims, and the enhancer
interceptor runs last. -/
def authPipeline (store : CompanyStore) (st : ResolverState) (now : Nat)
    (hostname : String) (headerCompanyId : Option String) (claims : JwtPayload) :
    RequestState × ResolverState :=
  let m := middlewareUse store st now
    { hostname := hostname, user := none, headerCompanyId := headerCompanyId }
  interceptorIntercept store m.2 now { m.1 with user := some claims }

/-- Result of a guard's `canActivate`: `true`, or a thrown
`ForbiddenException` / `BadRequestException` with its message. -/
inductive GuardOutcome where
  | pass
  | forbidden (message : String)
  | badRequest (message : String)
deriving Repr, DecidableEq

/-- The four modes of `@RequireTenant()` (`TenantRequirementMode`). -/
inductive TenantMode where
  | basic
  | strict
  | allowSuperadmin
  | blockSuperadmin
deriving Repr, DecidableEq

/-- Route metadata produced by the `@RequireTenant()` decorator. -/
structure TenantRequirement where
  mode : TenantMode
  allowSuperadmin : Bool
deriving Repr, DecidableEq

/-- The `RequireTenant` decorator: `allowSuperadmin` is true unless the
mode is `block-superadmin`. -/
def requireTenant (mode : TenantMode) : TenantRequirement :=
  { mode := mode, allowSuperadmin := mode != TenantMode.blockSuperadmin }

/-- `TenantGuard.isSuperadmin`: the bypass keys on
`user.roleIds?.includes("superadmin")`, not on the `isSuperadmin` claim. -/
def tenantIsSuperadmin (user : JwtPayload) : Bool :=
  user.roleIds.contains "superadmin"

/-- `TenantGuard.validateBasicAccess`: the user must carry a company id;
a tenant context, when present, must match it; absence of a context is
tolerated. -/
def validateBasicAccess (user : JwtPayload) (tenantContext : Option TenantContext) :
    GuardOutcome :=
  if user.companyId = "" then
    .forbidden "User must belong to a company"
  else
    match tenantContext with
    | some ctx =>
      if ctx.tenantId ≠ user.companyId then
        .forbidden "Tenant context does not match user company"
      else .pass
    | none => .pass

/-- `TenantGuard.validateStrictAccess`: a context with resolved
`tenantInfo` is mandatory, its id must match the user's company, and the
resolved company must be active. -/
def validateStrictAccess (user : JwtPayload) (tenantContext : Option TenantContext) :
    GuardOutcome :=
  match tenantContext with
  | none =>
    .forbidden "Tenant context not found. Ensure TenantContextInterceptor is applied to this endpoint."
  | some ctx =>
    match ctx.tenantInfo with
    | none =>
      .forbidden "Complete tenant information not available. Company may be inactive or not found."
    | some info =>
      if ctx.tenantId ≠ user.companyId then
        .forbidden "Access denied: tenant context mismatch"
      else if !info.isActive then
        .forbidden "Access denied: company is not active"
      else .pass

/-- `TenantGuard.validateTenantAccess`: mode dispatch. -/
def validateTenantAccess (requirement : TenantRequirement) (user : JwtPayload)
    (tenantContext : Option TenantContext) : GuardOutcome :=
  match requirement.mode with
  | .basic => validateBasicAccess user tenantContext
  | .strict => validateStrictAccess user tenantContext
  | .allowSuperadmin => validateBasicAccess user tenantContext
  | .blockSuperadmin => validateStrictAccess user tenantContext

/-- `TenantGuard.canActivate`: no decorator passes; no user rejects; the
superadmin bypass applies when the requirement allows it and the user's
role ids contain `superadmin`; otherwise a company id is required and
the mode-specific validation runs. -/
def tenantGuardCanActivate (requirement : Option TenantRequirement)
    (user : Option JwtPayload) (tenantContext : Option TenantContext) : GuardOutcome :=
  match requirement with
  | none => .pass
  | some req =>
    match user with
    | none => .forbidden "Authentication required for tenant access"
    | some u =>
      if req.allowSuperadmin && tenantIsSuperadmin u then .pass
      else if u.companyId = "" then
        .forbidden "User must belong to a company to access tenant resources"
      else validateTenantAccess req u tenantContext

/-- `Array.prototype.join(", ")` on the permission and module lists used
in exception messages. -/
def joinComma : List String → String
  | [] => ""
  | [s] => s
  | s :: rest => s ++ ", " ++ joinComma rest

/-- `RoleGuard.canActivate` (permission guard, current revision with the
superadmin bypass documented in the security audit): fine-grained
`@RequirePermissions` metadata takes precedence over legacy `@Roles`
metadata; no metadata passes; no user rejects; a superadmin passes
unconditionally; an empty permission set rejects; otherwise OR semantics
over the required list. -/
def roleGuardCanActivate (permissionsMeta rolesMeta : Option (List String))
    (user : Option JwtPayload) : GuardOutcome :=
  let requiredPermissions :=
    match permissionsMeta with
    | some ps => some ps
    | none => rolesMeta
  match requiredPermissions with
  | none => .pass
  | some required =>
    match user with
    | none => .forbidden "Authentication required"
    | some u =>
      if jsBoolTruthy u.isSuperadmin then .pass
      else if u.permissions.isEmpty then .forbidden "No permissions assigned"
      else if required.any (fun p => u.permissions.contains p) then .pass
      else .forbidden ("Access denied. Required permission(s): " ++ joinComma required)

/-- The superseded `RoleGuard.canActivate` revision (the copy without a
superadmin bypass): kept to document that it rejects a flagged
superadmin whose permission set is empty. -/
def roleGuardLegacyCanActivate (permissionsMeta rolesMeta : Option (List String))
    (user : Option JwtPayload) : GuardOutcome :=
  let requiredPermissions :=
    match permissionsMeta with
    | some ps => some ps
    | none => rolesMeta
  match requiredPermissions with
  | none => .pass
  | some required =>
    match user with
    | none => .forbidden "Authentication required"
    | some u =>
      if !u.permissions.isEmpty && required.any (fun p => u.permissions.contains p) then
        .pass
      else .forbidden ("Access denied. Required permission(s): " ++ joinComma required)

/-- Options of `@RequireModule()` with their decorator defaults
`strict := true`, `allowSuperadmin := true`, `requireAny := false`. -/
structure ModuleRequirementOptions where
  strict : Bool
  allowSuperadmin : Bool
  requireAny : Bool
deriving Repr, DecidableEq

/-- Route metadata produced by the `@RequireModule()` decorator. -/
structure ModuleRequirement where
  modules : List String
  options : ModuleRequirementOptions
deriving Repr, DecidableEq

/-- One row of the `CompanyModule` table. -/
structure CompanyModuleRow where
  companyId : String
  module : String
  enabled : Bool
deriving Repr, DecidableEq

/-- The module-entitlement cache of `ModuleGuard`
(`moduleCache : Map<string, {modules, expires}>`). -/
structure ModuleCacheEntry where
  modules : List String
  expires : Nat
deriving Repr, DecidableEq

/-- `ModuleGuard.getEnabledModules`: return the cached set while
`expires > now`, otherwise query the store for enabled rows of the
company and cache the set for `CACHE_TTL`. -/
def getEnabledModules (moduleStore : List CompanyModuleRow)
    (cache : List (String × ModuleCacheEntry)) (now : Nat) (companyId : String) :
    List String × List (String × ModuleCacheEntry) :=
  match mapLookup cache companyId with
  | some cached =>
    if cached.expires > now then (cached.modules, cache)
    else
      let enabledModules :=
        (moduleStore.filter (fun r => r.companyId == companyId && r.enabled)).map
          (fun r => r.module)
      (enabledModules, mapInsert cache companyId
        { modules := enabledModules, expires := now + CACHE_TTL })
  | none =>
    let enabledModules :=
      (moduleStore.filter (fun r => r.companyId == companyId && r.enabled)).map
        (fun r => r.module)
    (enabledModules, mapInsert cache companyId
      { modules := enabledModules, expires := now + CACHE_TTL })

/-- `ModuleGuard.validateModuleAccess`: `requireAny` is OR semantics over
the required list, rejecting with the full list; the default is AND
semantics, rejecting with exactly the missing modules. -/
def validateModuleAccess (requirement : ModuleRequirement) (enabledModules : List String) :
    GuardOutcome :=
  if requirement.options.requireAny then
    if requirement.modules.any (fun m => enabledModules.contains m) then .pass
    else
      .forbidden
        ("Access denied: This feature requires at least one of the following modules to be enabled: "
          ++ joinComma requirement.modules)
  else
    let missingModules := requirement.modules.filter (fun m => !enabledModules.contains m)
    if !missingModules.isEmpty then
      .forbidden
        ("Access denied: This feature requires the following modules to be enabled: "
          ++ joinComma missingModules)
    else .pass

/-- `ModuleGuard.canActivate`: no decorator passes; no user rejects; the
superadmin bypass here keys on the `isSuperadmin` claim; a resolved
tenant id is required; then the enabled set is fetched (through the
cache) and validated. -/
def moduleGuardCanActivate (requirement : Option ModuleRequirement)
    (user : Option JwtPayload) (tenantContext : Option TenantContext)
    (moduleStore : List CompanyModuleRow) (cache : List (String × ModuleCacheEntry))
    (now : Nat) : GuardOutcome × List (String × ModuleCacheEntry) :=
  match requirement with
  | none => (.pass, cache)
  | some req =>
    match user with
    | none => (.forbidden "Authentication required for module access", cache)
    | some u =>
      if req.options.allowSuperadmin && jsBoolTruthy u.isSuperadmin then (.pass, cache)
      else
        match tenantContext with
        | none => (.forbidden "Tenant context required for module access validation", cache)
        | some ctx =>
          if ctx.tenantId = "" then
            (.forbidden "Tenant context required for module access validation", cache)
          else
            let r := getEnabledModules moduleStore cache now ctx.tenantId
            (validateModuleAccess req r.1, r.2)

/-- One window record of the rate limiter (`RateLimitData`). -/
structure RateLimitData where
  count : Nat
  windowStart : Nat
  lastReset : Nat
deriving Repr, DecidableEq

/-- The rate limiter's two in-memory maps (`rateLimitStore` keyed by
`method:route:ip`, and `blockedIPs` keyed by ip). -/
structure ThrottlerState where
  rateLimitStore : List (String × RateLimitData)
  blockedIPs : List (String × Nat)
deriving Repr, DecidableEq

/-- `RateLimitConfig` (`rate-limit.config.ts`). -/
structure RateLimitConfig where
  defaultTtl : Nat
  defaultLimit : Nat
  authTtl : Nat
  authLimit : Nat
  authRefreshLimit : Nat
  authLogoutLimit : Nat
  blockDuration : Nat
  enableBlocking : Bool
  logViolations : Bool
deriving Repr, DecidableEq

/-- `getRateLimitConfig` evaluated at its environment defaults:
100/min general, 5/min login, 10/min refresh, 20/min logout, 15-minute
blocks, blocking and logging enabled. -/
def defaultRateLimitConfig : RateLimitConfig :=
  { defaultTtl := 60000, defaultLimit := 100, authTtl := 60000, authLimit := 5,
    authRefreshLimit := 10, authLogoutLimit := 20, blockDuration := 900000,
    enableBlocking := true, logViolations := true }

/-- The request fields the rate limiter consumes. -/
structure ThrottleRequest where
  method : String
  url : String
  routePath : Option String
  ip : Option String
  remoteAddress : Option String
deriving Repr, DecidableEq

/-- JS `a || b` on an optional string with a string default (empty string
is falsy). -/
def jsOrStr (a : Option String) (b : String) : String :=
  match a with
  | some s => if s = "" then b else s
  | none => b

/-- `CustomThrottlerGuard.getClientIP`:
`request.ip || request.connection.remoteAddress || "unknown"`. -/
def getClientIP (r : ThrottleRequest) : String :=
  jsOrStr r.ip (jsOrStr r.remoteAddress "unknown")

/-- `CustomThrottlerGuard.generateKey`: `method:routePath-or-url:ip`. -/
def generateKey (r : ThrottleRequest) (ip : String) : String :=
  let route := r.method ++ ":" ++ jsOrStr r.routePath r.url
  route ++ ":" ++ ip

/-- `CustomThrottlerGuard.getRateLimitsForEndpoint`: substring
classification of the url, auth endpoints first. Returns `(limit, ttl)`. -/
def getRateLimitsForEndpoint (cfg : RateLimitConfig) (r : ThrottleRequest) : Nat × Nat :=
  if strContains r.url "/auth/" then
    if strContains r.url "/login" then (cfg.authLimit, cfg.authTtl)
    else if strContains r.url "/refresh" then (cfg.authRefreshLimit, cfg.authTtl)
    else if strContains r.url "/logout" then (cfg.authLogoutLimit, cfg.defaultTtl)
    else (cfg.defaultLimit, cfg.defaultTtl)
  else (cfg.defaultLimit, cfg.defaultTtl)

/-- `CustomThrottlerGuard.isIPBlocked`: a missing entry (or the JS-falsy
timestamp `0`) is not blocked; an entry with `Date.now() > blockedUntil`
is evicted and not blocked; otherwise blocked. Note the strict
comparison: `blockedUntil` exactly equal to `now` is still blocked. -/
def isIPBlocked (st : ThrottlerState) (now : Nat) (ip : String) : Bool × ThrottlerState :=
  match mapLookup st.blockedIPs ip with
  | none => (false, st)
  | some blockedUntil =>
    if blockedUntil = 0 then (false, st)
    else if now > blockedUntil then
      (false, { st with blockedIPs := mapErase st.blockedIPs ip })
    else (true, st)

/-- `CustomThrottlerGuard.checkRateLimit`: start a fresh window with count
1 when none exists or `now - windowStart > ttl`; otherwise increment the
existing window's count. The `limit` argument is unused, as in the
source. -/
def checkRateLimit (st : ThrottlerState) (now : Nat) (key : String) (_limit ttl : Nat) :
    RateLimitData × ThrottlerState :=
  match mapLookup st.rateLimitStore key with
  | some existing =>
    if now - existing.windowStart > ttl then
      let newData : RateLimitData := { count := 1, windowStart := now, lastReset := now + ttl }
      (newData, { st with rateLimitStore := mapInsert st.rateLimitStore key newData })
    else
      let upd := { existing with count := existing.count + 1 }
      (upd, { st with rateLimitStore := mapInsert st.rateLimitStore key upd })
  | none =>
    let newData : RateLimitData := { count := 1, windowStart := now, lastReset := now + ttl }
    (newData, { st with rateLimitStore := mapInsert st.rateLimitStore key newData })

/-- The three `X-RateLimit-*` response headers set by
`addRateLimitHeaders`. `remaining` is `Math.max(0, limit - count)`,
computed in `Int` so that the floor at zero is explicit. -/
structure RateHeaders where
  limit : Nat
  remaining : Int
  reset : Nat
deriving Repr, DecidableEq

/-- Result of `CustomThrottlerGuard.canActivate`: continue, the
blocked-IP 429 (with its `retryAfter` seconds), or the over-limit 429. -/
inductive ThrottleOutcome where
  | allowed
  | blockedRejection (retryAfterSeconds : Nat)
  | limitRejection
deriving Repr, DecidableEq

/-- Ceiling division, modelling `Math.ceil(a / b)` on the non-negative
values that occur here. -/
def ceilDiv (a b : Nat) : Nat :=
  (a + b - 1) / b

/-- `CustomThrottlerGuard.canActivate`. A blocked IP is rejected before
any header is attached (the third component stays `none` on that path);
otherwise the window is counted, the headers are attached, and the
request is rejected when `count > limit` — inserting a block entry first
when the url is an auth endpoint and blocking is enabled. -/
def throttlerCanActivate (cfg : RateLimitConfig) (st : ThrottlerState) (now : Nat)
    (r : ThrottleRequest) : ThrottleOutcome × ThrottlerState × Option RateHeaders :=
  let ip := getClientIP r
  let blockedCheck := isIPBlocked st now ip
  if blockedCheck.1 then
    let blockedUntil := (mapLookup blockedCheck.2.blockedIPs ip).getD 0
    (.blockedRejection (ceilDiv (blockedUntil - now) 1000), blockedCheck.2, none)
  else
    let st1 := blockedCheck.2
    let limits := getRateLimitsForEndpoint cfg r
    let key := generateKey r ip
    let checked := checkRateLimit st1 now key limits.1 limits.2
    let rateLimitData := checked.1
    let st2 := checked.2
    let headers : RateHeaders :=
      { limit := limits.1,
        remaining := max 0 ((limits.1 : Int) - (rateLimitData.count : Int)),
        reset := rateLimitData.lastReset }
    if rateLimitData.count > limits.1 then
      let st3 :=
        if strContains r.url "/auth/" && cfg.enableBlocking then
          { st2 with blockedIPs := mapInsert st2.blockedIPs ip (now + cfg.blockDuration) }
        else st2
      (.limitRejection, st3, some headers)
    else (.allowed, st2, some headers)

/-! Concrete fixtures used by counterexample and witness theorems. -/

/-- Fixture: an active company with id `company-a` and subdomain `aco`. -/
def companyA : TenantInfo :=
  { id := "company-a", name := "A Co", subdomain := "aco", isActive := true }

/-- Fixture: an active company with id `company-b` and subdomain `bco`. -/
def companyB : TenantInfo :=
  { id := "company-b", name := "B Co", subdomain := "bco", isActive := true }

/-- Fixture: a non-superadmin identity verified for `companyA`. -/
def claimsForA : JwtPayload :=
  { userId := "u1", companyId := "company-a", roleIds := ["r1"],
    permissions := ["employees:read"], tokenVersion := 0, isSuperadmin := some false }

/-- C1. The spec and the source's own comments state that a verified
claim for company A outranks a subdomain resolving to company B. The
pipeline does not deliver this: the pre-auth middleware (where
`request.user` is still absent) resolves the subdomain to B with full
`tenantInfo`, and the post-auth enhancer skips re-resolution precisely
because `tenantInfo` is already present, so the final tenant context is
B, not A. Both companies here are active and the claim for A is valid. -/
theorem claimA_subdomainB_final_context_is_B :
    (authPipeline [companyA, companyB] ⟨[], []⟩ 1000 "bco.myerp.com" none claimsForA).1.tenantContext
      = some { tenantId := "company-b", tenantInfo := some companyB } := by
  decide

/-- C2. The permission guard passes unconditionally for an identity whose
`isSuperadmin` claim is true, for every non-empty required-permission
list (from either decorator) and regardless of the identity's permission
set — the bypass runs before the empty-permission-set rejection. -/
theorem roleGuard_superadmin_bypasses_permissions
    (required : List String) (rolesMeta : Option (List String)) (u : JwtPayload)
    (_hreq : required ≠ []) (hsup : u.isSuperadmin = some true) :
    roleGuardCanActivate (some required) rolesMeta (some u) = GuardOutcome.pass := by
  simp [roleGuardCanActivate, jsBoolTruthy, hsup]

/-- C2 witness: a superadmin with an empty permission set passes a route
requiring `employees:read`. -/
theorem roleGuard_superadmin_bypasses_permissions_witness :
    roleGuardCanActivate (some ["employees:read"]) none
      (some { userId := "sa", companyId := "global", roleIds := ["superadmin"],
              permissions := [], tokenVersion := 0, isSuperadmin := some true })
      = GuardOutcome.pass :=
  roleGuard_superadmin_bypasses_permissions ["employees:read"] none _ (by decide) rfl

/-- C3 counterexample. An identity whose claims record has
`isSuperadmin = true` but whose `roleIds` do not contain `superadmin`
does not trigger TenantGuard's bypass (which keys on `roleIds`), and is
rejected for lacking a company id — refuting the claim that the
`isSuperadmin` flag alone passes unconditionally. -/
theorem tenantGuard_flag_only_superadmin_rejected :
    tenantGuardCanActivate (some { mode := TenantMode.basic, allowSuperadmin := true })
      (some { userId := "u2", companyId := "", roleIds := [], permissions := [],
              tokenVersion := 0, isSuperadmin := some true })
      none
      = GuardOutcome.forbidden "User must belong to a company to access tenant resources" := by
  decide

/-- C3 amended. TenantGuard's superadmin bypass keys on the identity's
`roleIds` containing `superadmin` (not on the `isSuperadmin` claim): for
every requirement with `allowSuperadmin = true` and every identity whose
`roleIds` contain `superadmin`, the guard passes unconditionally, even
with no company id and no tenant context. -/
theorem tenantGuard_roleId_superadmin_bypass
    (req : TenantRequirement) (u : JwtPayload) (ctx : Option TenantContext)
    (hallow : req.allowSuperadmin = true)
    (hrole : u.roleIds.contains "superadmin" = true) :
    tenantGuardCanActivate (some req) (some u) ctx = GuardOutcome.pass := by
  have hmem : "superadmin" ∈ u.roleIds := by simpa using hrole
  simp [tenantGuardCanActivate, tenantIsSuperadmin, hallow, hmem]

/-- C3 witness: a `superadmin`-role identity with no company id and no
tenant context passes a basic tenant requirement. -/
theorem tenantGuard_roleId_superadmin_bypass_witness :
    tenantGuardCanActivate (some { mode := TenantMode.basic, allowSuperadmin := true })
      (some { userId := "sa", companyId := "", roleIds := ["superadmin"], permissions := [],
              tokenVersion := 0, isSuperadmin := some true })
      none = GuardOutcome.pass :=
  tenantGuard_roleId_superadmin_bypass _ _ _ rfl (by decide)

/-- Helper: with the superadmin bypass not applying and a company id
present, TenantGuard in a strict-family mode reduces to
`validateStrictAccess`. -/
theorem tenantGuard_strict_reduction
    (req : TenantRequirement) (u : JwtPayload) (ctx : Option TenantContext)
    (hmode : req.mode = TenantMode.strict ∨ req.mode = TenantMode.blockSuperadmin)
    (hnobypass : req.allowSuperadmin = false ∨ u.roleIds.contains "superadmin" = false)
    (hcompany : u.companyId ≠ "") :
    tenantGuardCanActivate (some req) (some u) ctx = validateStrictAccess u ctx := by
  have hb : (req.allowSuperadmin && tenantIsSuperadmin u) = false := by
    rcases hnobypass with h | h
    · simp [h]
    · have hmem : "superadmin" ∉ u.roleIds := by simpa using h
      simp [tenantIsSuperadmin, hmem]
  have hb2 : ¬(req.allowSuperadmin && tenantIsSuperadmin u) = true := by
    rw [hb]
    exact Bool.false_ne_true
  rcases hmode with h | h <;>
  · simp only [tenantGuardCanActivate]
    rw [if_neg hb2, if_neg hcompany]
    simp [validateTenantAccess, h]

/-- C7. In strict mode (`strict` or `block-superadmin`), with the
superadmin bypass not applying and the identity carrying a company id:
a tenant context lacking `tenantInfo` is rejected even when its
`tenantId` equals the identity's company, and the guard passes exactly
when a context with `tenantInfo` is present, its id matches the
identity's company, and the resolved company is active. -/
theorem strictMode_requires_full_tenant_info
    (req : TenantRequirement) (u : JwtPayload) (ctx : Option TenantContext)
    (hmode : req.mode = TenantMode.strict ∨ req.mode = TenantMode.blockSuperadmin)
    (hnobypass : req.allowSuperadmin = false ∨ u.roleIds.contains "superadmin" = false)
    (hcompany : u.companyId ≠ "") :
    (∀ c, ctx = some c → c.tenantInfo = none →
        tenantGuardCanActivate (some req) (some u) ctx =
          GuardOutcome.forbidden
            "Complete tenant information not available. Company may be inactive or not found.") ∧
    (tenantGuardCanActivate (some req) (some u) ctx = GuardOutcome.pass ↔
        ∃ c info, ctx = some c ∧ c.tenantInfo = some info ∧ c.tenantId = u.companyId ∧
          info.isActive = true) := by
  have hguard := tenantGuard_strict_reduction req u ctx hmode hnobypass hcompany
  constructor
  · intro c hc hinfo
    subst hc
    rw [hguard]
    simp [validateStrictAccess, hinfo]
  · rw [hguard]
    cases ctx with
    | none => simp [validateStrictAccess]
    | some c =>
      cases hci : c.tenantInfo with
      | none => simp [validateStrictAccess, hci]
      | some info =>
        constructor
        · intro hpass
          by_cases hid : c.tenantId = u.companyId
          · by_cases hact : info.isActive
            · exact ⟨c, info, rfl, hci, hid, hact⟩
            · simp [validateStrictAccess, hci, hid, hact] at hpass
          · simp [validateStrictAccess, hci, hid] at hpass
        · rintro ⟨c2, info2, hc2, hinfo2, hid2, hact2⟩
          have hcc : c = c2 := Option.some.inj hc2
          subst hcc
          have hii : info = info2 := by
            rw [hci] at hinfo2
            exact Option.some.inj hinfo2
          subst hii
          simp [validateStrictAccess, hci, hid2, hact2]

/-- C7 witness: strict mode rejects a context whose `tenantId` matches
the identity's company but which lacks `tenantInfo`. -/
theorem strictMode_requires_full_tenant_info_witness :
    tenantGuardCanActivate (some { mode := TenantMode.strict, allowSuperadmin := true })
      (some { userId := "u3", companyId := "company-a", roleIds := ["r1"], permissions := [],
              tokenVersion := 0, isSuperadmin := some false })
      (some { tenantId := "company-a", tenantInfo := none })
      = GuardOutcome.forbidden
          "Complete tenant information not available. Company may be inactive or not found." :=
  (strictMode_requires_full_tenant_info _ _ _ (Or.inl rfl) (Or.inr (by decide))
      (by decide)).1 _ rfl rfl

/-- C8. For a required module list that intersects but is not contained
in the enabled set, `requireAny = true` (OR semantics) passes, while the
default `requireAny = false` (AND semantics) rejects with a message
naming exactly the missing modules. -/
theorem moduleGuard_requireAny_or_vs_and
    (modules enabledModules : List String)
    (hsome : ∃ m, m ∈ modules ∧ enabledModules.contains m = true)
    (hmiss : ∃ m, m ∈ modules ∧ enabledModules.contains m = false) :
    validateModuleAccess
        { modules := modules,
          options := { strict := true, allowSuperadmin := true, requireAny := true } }
        enabledModules = GuardOutcome.pass ∧
    validateModuleAccess
        { modules := modules,
          options := { strict := true, allowSuperadmin := true, requireAny := false } }
        enabledModules =
      GuardOutcome.forbidden
        ("Access denied: This feature requires the following modules to be enabled: "
          ++ joinComma (modules.filter (fun m => !enabledModules.contains m))) := by
  obtain ⟨m1, hm1, he1⟩ := hsome
  obtain ⟨m2, hm2, he2⟩ := hmiss
  have hmem1 : m1 ∈ enabledModules := by simpa using he1
  have hmem2 : m2 ∉ enabledModules := by simpa using he2
  constructor
  · have hany : modules.any (fun m => enabledModules.contains m) = true :=
      List.any_eq_true.mpr ⟨m1, hm1, he1⟩
    simp only [validateModuleAccess, eq_self_iff_true, if_true]
    rw [if_pos hany]
  · have hne : modules.filter (fun m => !enabledModules.contains m) ≠ [] := by
      intro hnil
      have hmf : m2 ∈ modules.filter (fun m => !enabledModules.contains m) :=
        List.mem_filter.mpr ⟨hm2, by simpa using hmem2⟩
      rw [hnil] at hmf
      exact List.not_mem_nil m2 hmf
    have hemp : (modules.filter (fun m => !enabledModules.contains m)).isEmpty = false := by
      cases hf : modules.filter (fun m => !enabledModules.contains m) with
      | nil => exact absurd hf hne
      | cons a l => simp
    simp only [validateModuleAccess, Bool.false_eq_true, if_false]
    rw [if_pos (by rw [hemp]; rfl)]

/-- C8 witness: required `[HRM, PAYROLL]` with only `HRM` enabled —
OR passes, AND rejects naming `PAYROLL`. -/
theorem moduleGuard_requireAny_or_vs_and_witness :
    validateModuleAccess
        { modules := ["HRM", "PAYROLL"],
          options := { strict := true, allowSuperadmin := true, requireAny := true } }
        ["HRM"] = GuardOutcome.pass ∧
    validateModuleAccess
        { modules := ["HRM", "PAYROLL"],
          options := { strict := true, allowSuperadmin := true, requireAny := false } }
        ["HRM"] =
      GuardOutcome.forbidden
        "Access denied: This feature requires the following modules to be enabled: PAYROLL" :=
  moduleGuard_requireAny_or_vs_and ["HRM", "PAYROLL"] ["HRM"]
    ⟨"HRM", by decide, by decide⟩ ⟨"PAYROLL", by decide, by decide⟩

/-- Fixture: a login request from ip `1.2.3.4`. -/
def loginRequest : ThrottleRequest :=
  { method := "POST", url := "/auth/login", routePath := none, ip := some "1.2.3.4",
    remoteAddress := none }

/-- Fixture: a health-check request from ip `9.9.9.9`. -/
def healthRequest : ThrottleRequest :=
  { method := "GET", url := "/health", routePath := none, ip := some "9.9.9.9",
    remoteAddress := none }

/-- C4 counterexample. A request from a currently blocked IP is rejected
with the blocked-IP 429 before `addRateLimitHeaders` runs: the response
carries no rate-limit headers, refuting the claim that the headers are
attached on every request, including 429 rejections. -/
theorem blocked_rejection_has_no_rate_headers :
    throttlerCanActivate defaultRateLimitConfig
        { rateLimitStore := [], blockedIPs := [("1.2.3.4", 2000)] } 1000 loginRequest =
      (ThrottleOutcome.blockedRejection 1,
       { rateLimitStore := [], blockedIPs := [("1.2.3.4", 2000)] }, none) := by
  decide

/-- C4 amended. On every request that passes the IP-block check, the
rate limiter attaches the three headers — on the accepted path and on
the over-limit 429 path alike — with the limit of the endpoint's class
and a `remaining` value floored at zero, hence never negative. Requests
rejected by the blocked-IP check carry no rate-limit headers. -/
theorem rate_headers_after_block_check
    (cfg : RateLimitConfig) (st : ThrottlerState) (now : Nat) (r : ThrottleRequest)
    (h : (isIPBlocked st now (getClientIP r)).1 = false) :
    ∃ hd : RateHeaders,
      (throttlerCanActivate cfg st now r).2.2 = some hd ∧
      hd.limit = (getRateLimitsForEndpoint cfg r).1 ∧
      0 ≤ hd.remaining ∧
      ((throttlerCanActivate cfg st now r).1 = ThrottleOutcome.allowed ∨
       (throttlerCanActivate cfg st now r).1 = ThrottleOutcome.limitRejection) := by
  simp only [throttlerCanActivate, h, Bool.false_eq_true, if_false]
  split
  · exact ⟨_, rfl, rfl, le_max_left 0 _, Or.inr rfl⟩
  · exact ⟨_, rfl, rfl, le_max_left 0 _, Or.inl rfl⟩

/-- C4 witness: an unblocked login request gets headers
`limit = 5, remaining = 4, reset = now + ttl` and is allowed. -/
theorem rate_headers_after_block_check_witness :
    ∃ hd : RateHeaders,
      (throttlerCanActivate defaultRateLimitConfig
          { rateLimitStore := [], blockedIPs := [] } 1000 loginRequest).2.2 = some hd ∧
      hd.limit = (getRateLimitsForEndpoint defaultRateLimitConfig loginRequest).1 ∧
      0 ≤ hd.remaining ∧
      ((throttlerCanActivate defaultRateLimitConfig
          { rateLimitStore := [], blockedIPs := [] } 1000 loginRequest).1 =
            ThrottleOutcome.allowed ∨
       (throttlerCanActivate defaultRateLimitConfig
          { rateLimitStore := [], blockedIPs := [] } 1000 loginRequest).1 =
            ThrottleOutcome.limitRejection) :=
  rate_headers_after_block_check defaultRateLimitConfig
    { rateLimitStore := [], blockedIPs := [] } 1000 loginRequest (by decide)

/-- C6 counterexample. An IP whose block entry has `blockedUntil` exactly
equal to the current time is still rejected with the blocked-IP 429 and
its entry is not evicted — the eviction test is the strict
`Date.now() > blockedUntil`, refuting the claimed `blockedUntil <= now`
boundary. -/
theorem blockedUntil_equal_now_still_blocked :
    throttlerCanActivate defaultRateLimitConfig
        { rateLimitStore := [], blockedIPs := [("9.9.9.9", 1000)] } 1000 healthRequest =
      (ThrottleOutcome.blockedRejection 0,
       { rateLimitStore := [], blockedIPs := [("9.9.9.9", 1000)] }, none) := by
  decide

/-- C6 amended. An IP whose block entry has a nonzero `blockedUntil`
strictly below the current time is treated as unblocked: the entry is
evicted on access, the request is not rejected with the blocked-IP 429,
and it proceeds to normal window counting (headers get attached). -/
theorem expired_block_evicted_and_continues
    (cfg : RateLimitConfig) (st : ThrottlerState) (now : Nat) (r : ThrottleRequest) (bu : Nat)
    (hlook : mapLookup st.blockedIPs (getClientIP r) = some bu)
    (hpos : 0 < bu) (hlt : bu < now) :
    isIPBlocked st now (getClientIP r) =
      (false, { st with blockedIPs := mapErase st.blockedIPs (getClientIP r) }) ∧
    (∀ k, (throttlerCanActivate cfg st now r).1 ≠ ThrottleOutcome.blockedRejection k) ∧
    (throttlerCanActivate cfg st now r).2.2.isSome = true := by
  have hib : isIPBlocked st now (getClientIP r) =
      (false, { st with blockedIPs := mapErase st.blockedIPs (getClientIP r) }) := by
    simp only [isIPBlocked, hlook]
    rw [if_neg (Nat.pos_iff_ne_zero.mp hpos), if_pos hlt]
  refine ⟨hib, ?_, ?_⟩
  · intro k hk
    simp only [throttlerCanActivate, hib, Bool.false_eq_true, if_false] at hk
    split at hk <;> simp at hk
  · simp only [throttlerCanActivate, hib, Bool.false_eq_true, if_false]
    split <;> rfl

/-- C6 witness: a block entry that expired 500 ms ago is evicted and the
request continues to window counting. -/
theorem expired_block_evicted_and_continues_witness :
    isIPBlocked { rateLimitStore := [], blockedIPs := [("9.9.9.9", 500)] } 1000 "9.9.9.9" =
      (false, { rateLimitStore := [], blockedIPs := [] }) ∧
    (∀ k, (throttlerCanActivate defaultRateLimitConfig
        { rateLimitStore := [], blockedIPs := [("9.9.9.9", 500)] } 1000 healthRequest).1 ≠
          ThrottleOutcome.blockedRejection k) ∧
    (throttlerCanActivate defaultRateLimitConfig
        { rateLimitStore := [], blockedIPs := [("9.9.9.9", 500)] } 1000 healthRequest).2.2.isSome
      = true := by
  have h := expired_block_evicted_and_continues defaultRateLimitConfig
    { rateLimitStore := [], blockedIPs := [("9.9.9.9", 500)] } 1000 healthRequest 500
    (by decide) (by decide) (by decide)
  exact ⟨h.1, h.2.1, h.2.2⟩

/-- Helper: looking up a key right after inserting it yields the value. -/
theorem mapLookup_insert_self {α : Type} (m : List (String × α)) (k : String) (v : α) :
    mapLookup (mapInsert m k v) k = some v := by
  simp [mapInsert, mapLookup]

/-- Helper: looking up a key right after erasing it misses. -/
theorem mapLookup_erase_self {α : Type} (m : List (String × α)) (k : String) :
    mapLookup (mapErase m k) k = none := by
  induction m with
  | nil => rfl
  | cons kv rest ih =>
    by_cases hk : kv.1 = k
    · simpa [mapErase, List.filter_cons, hk] using ih
    · simpa [mapErase, List.filter_cons, hk, mapLookup] using ih

/-- Helper: a cache hit leaves the resolver state unchanged. -/
theorem getCachedTenant_hit_state (st : ResolverState) (now : Nat) (key : String)
    (c : TenantInfo) (st2 : ResolverState)
    (h : getCachedTenant st now key = (some c, st2)) : st2 = st := by
  unfold getCachedTenant at h
  split at h
  · split at h
    · injection h with h1 h2
      exact h2.symm
    · injection h with h1 h2
      exact Option.noConfusion h1
  · injection h with h1 h2
    exact Option.noConfusion h1

/-- Fixture: an active company whose subdomain is `abc`. -/
def abcCompany : TenantInfo :=
  { id := "company-abc", name := "ABC Corp", subdomain := "abc", isActive := true }

/-- Fixture: a store holding only `abcCompany`. -/
def abcStore : CompanyStore := [abcCompany]

/-- C5 counterexample. `resolveFromSubdomain("ABC")` caches under the raw
key `ABC`; the subsequent `resolveFromSubdomain("abc")` misses the cache
(its key is `abc`), performs a second store lookup, and creates a second
cache entry — the two calls do not hit the same cache entry. -/
theorem uppercase_then_lowercase_second_store_lookup :
    (resolveFromSubdomain abcStore
        (resolveFromSubdomain abcStore { tenantCache := [], cacheTimestamps := [] }
          1000 "ABC").2.1 1000 "abc").2.2 =
      [ResolverEffect.cacheRead "abc", ResolverEffect.storeLookupBySubdomain "abc",
       ResolverEffect.cacheWrite "abc"] ∧
    (resolveFromSubdomain abcStore
        (resolveFromSubdomain abcStore { tenantCache := [], cacheTimestamps := [] }
          1000 "ABC").2.1 1000 "abc").2.1.tenantCache =
      [("abc", abcCompany), ("ABC", abcCompany)] := by
  decide

/-- C5 amended. The cache key is the raw subdomain argument, so only a
repeat call with identical casing is served from the cache: whenever a
call at a positive time succeeds, repeating it with the same string at
the same time returns the same data from the cache, performs no store
lookup, and leaves the state unchanged. -/
theorem same_case_repeat_served_from_cache
    (store : CompanyStore) (st : ResolverState) (now : Nat) (s : String)
    (hpos : 0 < now)
    (hsucc : (resolveFromSubdomain store st now s).1.success = true) :
    resolveFromSubdomain store (resolveFromSubdomain store st now s).2.1 now s =
      ({ success := true, tenantId := (resolveFromSubdomain store st now s).1.tenantId,
         tenantInfo := (resolveFromSubdomain store st now s).1.tenantInfo,
         source := TenantResolutionSource.subdomain },
       (resolveFromSubdomain store st now s).2.1,
       [ResolverEffect.cacheRead s]) := by
  by_cases hs : s = ""
  · rw [resolveFromSubdomain, if_pos hs] at hsucc
    exact Bool.noConfusion hsucc
  · rcases hget : getCachedTenant st now s with ⟨copt, st1⟩
    cases copt with
    | some cached =>
      have hst1 : st1 = st := getCachedTenant_hit_state st now s cached st1 hget
      rw [hst1] at hget
      have hfirst : resolveFromSubdomain store st now s =
          ({ success := true, tenantId := some cached.id, tenantInfo := some cached,
             source := .subdomain }, st, [.cacheRead s]) := by
        unfold resolveFromSubdomain
        rw [if_neg hs, hget]
      rw [hfirst]
      exact hfirst
    | none =>
      rcases hfind : findUniqueCompanyBySubdomain store (lowerStr s) with _ | company
      · have hfail : (resolveFromSubdomain store st now s).1.success = false := by
          unfold resolveFromSubdomain
          rw [if_neg hs, hget, hfind]
        rw [hfail] at hsucc
        exact Bool.noConfusion hsucc
      · have hfirst : resolveFromSubdomain store st now s =
            ({ success := true, tenantId := some company.id,
               tenantInfo :=
                 some ⟨company.id, company.name, company.subdomain, company.isActive⟩,
               source := .subdomain },
             setCachedTenant st1 now s
               ⟨company.id, company.name, company.subdomain, company.isActive⟩,
             [.cacheRead s, .storeLookupBySubdomain (lowerStr s), .cacheWrite s]) := by
          unfold resolveFromSubdomain
          rw [if_neg hs, hget, hfind]
        have hget2 : getCachedTenant
            (setCachedTenant st1 now s
              ⟨company.id, company.name, company.subdomain, company.isActive⟩) now s =
            (some ⟨company.id, company.name, company.subdomain, company.isActive⟩,
             setCachedTenant st1 now s
               ⟨company.id, company.name, company.subdomain, company.isActive⟩) := by
          unfold getCachedTenant setCachedTenant
          simp only [mapLookup_insert_self]
          rw [if_pos ⟨Nat.pos_iff_ne_zero.mp hpos, by rw [Nat.sub_self]; decide⟩]
        have hsecond : resolveFromSubdomain store
            (setCachedTenant st1 now s
              ⟨company.id, company.name, company.subdomain, company.isActive⟩) now s =
            ({ success := true, tenantId := some company.id,
               tenantInfo :=
                 some ⟨company.id, company.name, company.subdomain, company.isActive⟩,
               source := .subdomain },
             setCachedTenant st1 now s
               ⟨company.id, company.name, company.subdomain, company.isActive⟩,
             [.cacheRead s]) := by
          unfold resolveFromSubdomain
          rw [if_neg hs, hget2]
        rw [hfirst]
        exact hsecond

/-- C5 amended witness: repeating `resolveFromSubdomain("abc")` at the
same instant is served from the cache with a single cache read. -/
theorem same_case_repeat_served_from_cache_witness :
    resolveFromSubdomain abcStore
        (resolveFromSubdomain abcStore { tenantCache := [], cacheTimestamps := [] }
          1000 "abc").2.1 1000 "abc" =
      ({ success := true,
         tenantId := (resolveFromSubdomain abcStore
            { tenantCache := [], cacheTimestamps := [] } 1000 "abc").1.tenantId,
         tenantInfo := (resolveFromSubdomain abcStore
            { tenantCache := [], cacheTimestamps := [] } 1000 "abc").1.tenantInfo,
         source := TenantResolutionSource.subdomain },
       (resolveFromSubdomain abcStore
          { tenantCache := [], cacheTimestamps := [] } 1000 "abc").2.1,
       [ResolverEffect.cacheRead "abc"]) :=
  same_case_repeat_served_from_cache abcStore
    { tenantCache := [], cacheTimestamps := [] } 1000 "abc" (by decide) (by decide)

/-- C9 counterexample. The cache is consulted before the store, so a
subdomain whose company has meanwhile been deactivated or deleted in the
store still resolves with `success = true` while an unexpired cache
entry for it exists — the claim does not hold over arbitrary cache
states. Here the store is empty yet resolution succeeds. -/
theorem stale_cache_entry_returns_success :
    (resolveFromSubdomain []
        { tenantCache := [("abc", abcCompany)], cacheTimestamps := [("abc", 1000)] }
        1000 "abc").1.success = true := by
  decide

/-- C9 amended. For a non-empty subdomain with no unexpired cache entry
and no matching active company in the store, `resolveFromSubdomain`
returns `success = false` as a value, performs exactly one cache read
and one store lookup, adds no cache entry for the subdomain (a lookup
afterwards still misses), and changes the cache only by lazily evicting
the subdomain's expired entry. -/
theorem no_active_company_not_cached
    (store : CompanyStore) (st : ResolverState) (now : Nat) (s : String)
    (hs : s ≠ "")
    (hnofresh : ∀ info ts, mapLookup st.tenantCache s = some info →
        mapLookup st.cacheTimestamps s = some ts → ts = 0 ∨ CACHE_TTL ≤ now - ts)
    (hstore : findUniqueCompanyBySubdomain store (lowerStr s) = none) :
    (resolveFromSubdomain store st now s).1.success = false ∧
    (resolveFromSubdomain store st now s).2.1 =
      { tenantCache := mapErase st.tenantCache s,
        cacheTimestamps := mapErase st.cacheTimestamps s } ∧
    mapLookup (resolveFromSubdomain store st now s).2.1.tenantCache s = none ∧
    (resolveFromSubdomain store st now s).2.2 =
      [ResolverEffect.cacheRead s, ResolverEffect.storeLookupBySubdomain (lowerStr s)] := by
  have hmiss : getCachedTenant st now s =
      (none, { tenantCache := mapErase st.tenantCache s,
               cacheTimestamps := mapErase st.cacheTimestamps s }) := by
    unfold getCachedTenant
    rcases h1 : mapLookup st.tenantCache s with _ | info
    · rfl
    · rcases h2 : mapLookup st.cacheTimestamps s with _ | ts
      · rfl
      · have hcond : ¬(ts ≠ 0 ∧ now - ts < CACHE_TTL) := by
          rcases hnofresh info ts h1 h2 with h0 | hold
          · intro hc
            exact hc.1 h0
          · intro hc
            exact absurd hc.2 (not_lt.mpr hold)
        show (if ts ≠ 0 ∧ now - ts < CACHE_TTL then (some info, st)
            else (none, { tenantCache := mapErase st.tenantCache s,
                          cacheTimestamps := mapErase st.cacheTimestamps s })) =
          (none, { tenantCache := mapErase st.tenantCache s,
                   cacheTimestamps := mapErase st.cacheTimestamps s })
        rw [if_neg hcond]
  have hrun : resolveFromSubdomain store st now s =
      ({ success := false, source := .subdomain,
         error := some ("No active company found for subdomain: " ++ s) },
       { tenantCache := mapErase st.tenantCache s,
         cacheTimestamps := mapErase st.cacheTimestamps s },
       [ResolverEffect.cacheRead s, ResolverEffect.storeLookupBySubdomain (lowerStr s)]) := by
    unfold resolveFromSubdomain
    rw [if_neg hs, hmiss, hstore]
  rw [hrun]
  exact ⟨rfl, rfl, mapLookup_erase_self st.tenantCache s, rfl⟩

/-- C9 amended witness: an unknown subdomain on an empty store and
empty cache fails softly, caches nothing, and looks the store up once. -/
theorem no_active_company_not_cached_witness :
    (resolveFromSubdomain [] { tenantCache := [], cacheTimestamps := [] } 1000 "ghost").1.success
        = false ∧
    (resolveFromSubdomain [] { tenantCache := [], cacheTimestamps := [] } 1000 "ghost").2.1 =
      { tenantCache := mapErase ([] : List (String × TenantInfo)) "ghost",
        cacheTimestamps := mapErase ([] : List (String × Nat)) "ghost" } ∧
    mapLookup (resolveFromSubdomain [] { tenantCache := [], cacheTimestamps := [] }
        1000 "ghost").2.1.tenantCache "ghost" = none ∧
    (resolveFromSubdomain [] { tenantCache := [], cacheTimestamps := [] } 1000 "ghost").2.2 =
      [ResolverEffect.cacheRead "ghost", ResolverEffect.storeLookupBySubdomain (lowerStr "ghost")] :=
  no_active_company_not_cached [] { tenantCache := [], cacheTimestamps := [] } 1000 "ghost"
    (by decide) (fun info ts hinfo _ => Option.noConfusion hinfo) (by decide)

/-- C10. `resolveFromJWT` with a company id never reads the tenant cache
and performs exactly one store lookup — its effect trace is the single
store lookup, plus, on success, one cache write keyed by the company's
subdomain (never by the company id field); and `resolveFromHeader`
delegates to it, changing only the result's source tag. -/
theorem resolveFromJWT_store_only_no_cache_read
    (store : CompanyStore) (st : ResolverState) (now : Nat) (cid : String) (h : cid ≠ "") :
    (∀ k, ResolverEffect.cacheRead k ∉ (resolveFromJWT store st now cid).2.2) ∧
    ((resolveFromJWT store st now cid).2.2 =
      match findUniqueCompanyById store cid with
      | none => [ResolverEffect.storeLookupById cid]
      | some company =>
        [ResolverEffect.storeLookupById cid, ResolverEffect.cacheWrite company.subdomain]) ∧
    resolveFromHeader store st now cid =
      ({ (resolveFromJWT store st now cid).1 with source := TenantResolutionSource.header },
       (resolveFromJWT store st now cid).2.1,
       (resolveFromJWT store st now cid).2.2) := by
  rcases hfind : findUniqueCompanyById store cid with _ | company
  · have hj : resolveFromJWT store st now cid =
        ({ success := false, source := .jwt,
           error := some ("Invalid or inactive company ID: " ++ cid) },
         st, [ResolverEffect.storeLookupById cid]) := by
      unfold resolveFromJWT
      rw [if_neg h, hfind]
    have hh : resolveFromHeader store st now cid =
        ({ success := false, source := .header,
           error := some ("Invalid or inactive company ID: " ++ cid) },
         st, [ResolverEffect.storeLookupById cid]) := by
      unfold resolveFromHeader
      rw [if_neg h, hj]
    rw [hj, hh]
    refine ⟨?_, rfl, rfl⟩
    intro k
    simp
  · have hj : resolveFromJWT store st now cid =
        ({ success := true, tenantId := some company.id,
           tenantInfo := some ⟨company.id, company.name, company.subdomain, company.isActive⟩,
           source := .jwt },
         setCachedTenant st now company.subdomain
           ⟨company.id, company.name, company.subdomain, company.isActive⟩,
         [ResolverEffect.storeLookupById cid,
          ResolverEffect.cacheWrite company.subdomain]) := by
      unfold resolveFromJWT
      rw [if_neg h, hfind]
    have hh : resolveFromHeader store st now cid =
        ({ success := true, tenantId := some company.id,
           tenantInfo := some ⟨company.id, company.name, company.subdomain, company.isActive⟩,
           source := .header },
         setCachedTenant st now company.subdomain
           ⟨company.id, company.name, company.subdomain, company.isActive⟩,
         [ResolverEffect.storeLookupById cid,
          ResolverEffect.cacheWrite company.subdomain]) := by
      unfold resolveFromHeader
      rw [if_neg h, hj]
    rw [hj, hh]
    refine ⟨?_, rfl, rfl⟩
    intro k
    simp

/-- C10 witness: resolving `company-abc` by verified claim performs one
store lookup, no cache read, writes under subdomain key `abc`, and the
header path returns the same result retagged. -/
theorem resolveFromJWT_store_only_no_cache_read_witness :
    (∀ k, ResolverEffect.cacheRead k ∉
        (resolveFromJWT abcStore { tenantCache := [], cacheTimestamps := [] }
          1000 "company-abc").2.2) ∧
    ((resolveFromJWT abcStore { tenantCache := [], cacheTimestamps := [] }
        1000 "company-abc").2.2 =
      match findUniqueCompanyById abcStore "company-abc" with
      | none => [ResolverEffect.storeLookupById "company-abc"]
      | some company =>
        [ResolverEffect.storeLookupById "company-abc",
         ResolverEffect.cacheWrite company.subdomain]) ∧
    resolveFromHeader abcStore { tenantCache := [], cacheTimestamps := [] } 1000 "company-abc" =
      ({ (resolveFromJWT abcStore { tenantCache := [], cacheTimestamps := [] }
            1000 "company-abc").1 with source := TenantResolutionSource.header },
       (resolveFromJWT abcStore { tenantCache := [], cacheTimestamps := [] }
          1000 "company-abc").2.1,
       (resolveFromJWT abcStore { tenantCache := [], cacheTimestamps := [] }
          1000 "company-abc").2.2) :=
  resolveFromJWT_store_only_no_cache_read abcStore
    { tenantCache := [], cacheTimestamps := [] } 1000 "company-abc" (by decide)
